import Mathlib

/-!
Shallow embedding of the Kale JupyterLab extension's serving dialogs
(`src/labextension/src/widgets/KFServingDialog.tsx`,
`src/labextension/src/widgets/KFServingPipelineDialog.tsx`,
`src/labextension/src/components/FormInput.tsx` — the latter file also
contains an embedded, older `KFServingDialog` variant) and of the Katib
parameter-schema note (`src/unnamed/part_000`).

Form field values are strings (DOM input values).  The react-hook-form
behaviour embedded here is the fragment the source exercises: a `register`
rules object carrying a `required` message and optionally a `pattern`
(regex + message); validation of a field checks `required` first (an empty
value yields the required message), then the pattern; `handleSubmit`
invokes the `onSubmit` callback only when no registered field has an
error.  Side effects (`toggleDialog`, `runInferenceService`,
`setKFServingMetadata`) are events in an explicit trace.
-/

/-- A character in `[a-z]`. -/
def isLowerAlpha (c : Char) : Bool := 'a' ≤ c && c ≤ 'z'

/-- A character in `[0-9]`. -/
def isDigitCh (c : Char) : Bool := '0' ≤ c && c ≤ '9'

/-- A character in `[a-z0-9-]` (middle of a K8s name). -/
def isNameMid (c : Char) : Bool := isLowerAlpha c || isDigitCh c || c = '-'

/-- A character in `[a-z0-9]` (last char of a K8s name tail). -/
def isNameEnd (c : Char) : Bool := isLowerAlpha c || isDigitCh c

/-- The regex `^[a-z]([a-z0-9-]*[a-z0-9])?$` from the InferenceService
name rule in `KFServingDialog.tsx`. -/
def k8sNameMatch (s : String) : Bool :=
  match s.data with
  | [] => false
  | c :: rest =>
    isLowerAlpha c &&
      (match rest.getLast? with
       | none => true
       | some lastc => rest.all isNameMid && isNameEnd lastc)

/-- The regex `^[0-9]+$` from the port rule. -/
def intMatch (s : String) : Bool :=
  !s.data.isEmpty && s.data.all isDigitCh

/-- The two regex literals occurring in the source. -/
inductive RegexVal where
  | k8sName
  | digits
deriving DecidableEq, Repr

/-- Semantics of a source regex literal as a whole-string test. -/
def regexTest : RegexVal → String → Bool
  | .k8sName, s => k8sNameMatch s
  | .digits, s => intMatch s

/-- A `pattern` entry of a react-hook-form rules object: the regex and the
message shown on mismatch. -/
structure PatternRule where
  value : RegexVal
  message : String
deriving DecidableEq, Repr

/-- A react-hook-form rules object as accepted by `register` / a
`Controller`'s `rules`.  The source only ever populates `required` and
`pattern`; the remaining validation options of the library are carried so
their absence is provable. -/
structure Rules where
  required : Option String := none
  pattern : Option PatternRule := none
  min : Option Int := none
  max : Option Int := none
  minLength : Option Nat := none
  maxLength : Option Nat := none
  validate : Bool := false
deriving DecidableEq, Repr

/-- Validate one field value against its rules: `required` fires on the
empty value, then `pattern` on a mismatch; `none` means no error.  (The
`min`/`max`/length/custom options are all unset in every rules object of
the source, proved below, so they contribute no checks.) -/
def validateField (r : Rules) (v : String) : Option String :=
  match r.required with
  | some msg =>
    if v = "" then some msg
    else
      match r.pattern with
      | some pr => if regexTest pr.value v then none else some pr.message
      | none => none
  | none =>
    match r.pattern with
    | some pr => if regexTest pr.value v then none else some pr.message
    | none => none

/-- A label/value entry of a `FormSelect`. -/
structure LabelValue where
  label : String
  value : String
deriving DecidableEq, Repr

/-- A registered form field: its `name`, UI label, `defaultValue` (as the
DOM string), its rules, and, for a select, its option list. -/
structure FieldReg where
  name : String
  label : String
  defaultValue : String
  rules : Rules
  values : Option (List LabelValue) := none
deriving DecidableEq, Repr

/-- An assignment of current form values to field names. -/
def Vals : Type := String → String

/-- The field-level errors of a form: for each registered field whose
value fails validation, the pair (field name, message). -/
def formErrors (fields : List FieldReg) (vals : Vals) : List (String × String) :=
  fields.filterMap fun f => (validateField f.rules (vals f.name)).map fun m => (f.name, m)

/-- The flat key-value record captured on submission: each registered
field name paired with its current value. -/
def formRecord (fields : List FieldReg) (vals : Vals) : List (String × String) :=
  fields.map fun f => (f.name, vals f.name)

/-- The observable side effects of the dialogs. -/
inductive Event where
  | toggleDialog
  | runInferenceService (data : List (String × String))
  | setKFServingMetadata (data : List (String × String))
deriving DecidableEq, Repr

/-- react-hook-form `handleSubmit`: run validation over the registered
fields and invoke the `onSubmit` callback on the captured record only when
there are no errors. -/
def handleSubmitRun (fields : List FieldReg) (vals : Vals)
    (onSubmit : List (String × String) → List Event) : List Event :=
  if formErrors fields vals = [] then onSubmit (formRecord fields vals) else []

/-- `PREDICTOR_VALUES` from `KFServingDialog.tsx`, imported unchanged by
`KFServingPipelineDialog.tsx`. -/
def PREDICTOR_VALUES : List LabelValue :=
  [ ⟨"Tensorflow", "tensorflow"⟩,
    ⟨"PyTorch", "pytorch"⟩,
    ⟨"ONNX", "onnx"⟩,
    ⟨"Triton", "triton"⟩,
    ⟨"SKLearn", "sklearn"⟩,
    ⟨"XGBoost", "xgboost"⟩,
    ⟨"Custom", "custom"⟩ ]

/-- The `name` field registration of `KFServingDialog.tsx`. -/
def kfsNameField : FieldReg :=
  { name := "name", label := "InferenceService Name", defaultValue := "",
    rules := { required := some "Required field",
               pattern := some ⟨.k8sName, "Must be a valid K8s resource name"⟩ } }

/-- The `modelPath` field registration of `KFServingDialog.tsx`. -/
def kfsModelPathField : FieldReg :=
  { name := "modelPath", label := "Model Path", defaultValue := "",
    rules := { required := some "Required field" } }

/-- The `predictor` Controller of `KFServingDialog.tsx` (a `FormSelect`
over `PREDICTOR_VALUES`, empty default selection). -/
def kfsPredictorField : FieldReg :=
  { name := "predictor", label := "Predictor Type", defaultValue := "",
    rules := { required := some "Required field" },
    values := some PREDICTOR_VALUES }

/-- The `image` field, rendered only for the custom predictor. -/
def kfsImageField : FieldReg :=
  { name := "image", label := "Docker Image", defaultValue := "",
    rules := { required := some "Required field" } }

/-- The `port` field, rendered only for the custom predictor
(`defaultValue={5000}`). -/
def kfsPortField : FieldReg :=
  { name := "port", label := "Endpoint Port", defaultValue := "5000",
    rules := { required := some "Required field",
               pattern := some ⟨.digits, "Must be an int"⟩ } }

/-- The `endpoint` field, rendered only for the custom predictor. -/
def kfsEndpointField : FieldReg :=
  { name := "endpoint", label := "Service Endpoint", defaultValue := "",
    rules := { required := some "Required field" } }

/-- The fields `KFServingDialog` renders (and hence registers) as a
function of the watched `predictor` value: `image`, `port`, `endpoint`
appear exactly when the predictor is `custom`. -/
def kfServingDialogFields (predictorValue : String) : List FieldReg :=
  [kfsNameField, kfsModelPathField, kfsPredictorField] ++
    (if predictorValue = "custom" then [kfsImageField, kfsPortField, kfsEndpointField]
     else [])

/-- `onSubmit` of `KFServingDialog.tsx`: toggle the dialog, then hand the
record to `runInferenceService`. -/
def kfServingOnSubmit (data : List (String × String)) : List Event :=
  [Event.toggleDialog, Event.runInferenceService data]

/-- The Run button of `KFServingDialog`: `handleSubmit(onSubmit)` over the
currently rendered fields (the rendered set depends on the watched
predictor value). -/
def kfServingSubmit (vals : Vals) : List Event :=
  handleSubmitRun (kfServingDialogFields (vals "predictor")) vals kfServingOnSubmit

/-- `onCancel` of `KFServingDialog.tsx`: toggle the dialog, regardless of
the form state. -/
def kfServingCancel (_vals : Vals) : List Event :=
  [Event.toggleDialog]

/-- The `model` field registration of `KFServingPipelineDialog.tsx`. -/
def kfpModelField : FieldReg :=
  { name := "model", label := "Model Variable Name", defaultValue := "",
    rules := { required := some "Required field" } }

/-- The `predictor` Controller of `KFServingPipelineDialog.tsx`. -/
def kfpPredictorField : FieldReg :=
  { name := "predictor", label := "Predictor", defaultValue := "",
    rules := { required := some "Required field" },
    values := some PREDICTOR_VALUES }

/-- The fields of `KFServingPipelineDialog` (no conditional rendering). -/
def kfServingPipelineDialogFields : List FieldReg :=
  [kfpModelField, kfpPredictorField]

/-- `onSubmit` of `KFServingPipelineDialog.tsx`: toggle the dialog, then
hand the record to `setKFServingMetadata`. -/
def kfServingPipelineOnSubmit (data : List (String × String)) : List Event :=
  [Event.toggleDialog, Event.setKFServingMetadata data]

/-- The Ok button of `KFServingPipelineDialog`: `handleSubmit(onSubmit)`. -/
def kfServingPipelineSubmit (vals : Vals) : List Event :=
  handleSubmitRun kfServingPipelineDialogFields vals kfServingPipelineOnSubmit

/-- The field registrations of the `KFServingDialog` variant embedded in
`FormInput.tsx` (name, image, port, endpoint, path — all unconditionally
rendered). -/
def embeddedDialogFields : List FieldReg :=
  [ { name := "name", label := "InferenceService Name", defaultValue := "",
      rules := { required := some "Required field",
                 pattern := some ⟨.k8sName, "Must be a valid K8s resource name"⟩ } },
    { name := "image", label := "Docker Image", defaultValue := "",
      rules := { required := some "Required field" } },
    { name := "port", label := "Endpoint Port", defaultValue := "5000",
      rules := { required := some "Required field",
                 pattern := some ⟨.digits, "Must be an int"⟩ } },
    { name := "endpoint", label := "Service Endpoint", defaultValue := "",
      rules := { required := some "Required field" } },
    { name := "path", label := "Model Path", defaultValue := "",
      rules := { required := some "Required field" } } ]

/-- `onSubmit` of the embedded `KFServingDialog` variant in
`FormInput.tsx`: its body (`props.runInferenceService(data)`) is commented
out in the source, so the handler performs no action. -/
def embeddedOnSubmit (_data : List (String × String)) : List Event := []

/-- The Run button of the embedded variant: `handleSubmit(onSubmit)`. -/
def embeddedSubmit (vals : Vals) : List Event :=
  handleSubmitRun embeddedDialogFields vals embeddedOnSubmit

/-- `handleClose` of the embedded variant: toggle the dialog. -/
def embeddedClose (_vals : Vals) : List Event :=
  [Event.toggleDialog]

/-- What a timer started by the dialogs does on expiry. -/
inductive TimerAction where
  | triggerValidation
deriving DecidableEq, Repr

/-- An asynchronous operation started by the dialogs' code.  The only
constructor is a fixed-delay timer: no other asynchrony occurs in the
source. -/
inductive AsyncOp where
  | timer (delayMs : Nat) (action : TimerAction)
deriving DecidableEq, Repr

/-- The `React.useEffect` of `KFServingDialog.tsx` with dependency
`[props.open]`: when the effect runs with `open` true it starts a single
500 ms timer whose expiry calls `triggerValidation`; with `open` false it
starts nothing. -/
def kfServingOpenEffect (isOpen : Bool) : List AsyncOp :=
  if isOpen then [AsyncOp.timer 500 TimerAction.triggerValidation] else []

/-- The identical `React.useEffect` of `KFServingPipelineDialog.tsx`. -/
def kfServingPipelineOpenEffect (isOpen : Bool) : List AsyncOp :=
  if isOpen then [AsyncOp.timer 500 TimerAction.triggerValidation] else []

/-- The identical `React.useEffect` of the embedded variant in
`FormInput.tsx`. -/
def embeddedOpenEffect (isOpen : Bool) : List AsyncOp :=
  if isOpen then [AsyncOp.timer 500 TimerAction.triggerValidation] else []

/-- The action buttons of `KFServingDialog`, in order, each with the trace
its click produces from the current form values. -/
def kfServingDialogButtons : List (String × (Vals → List Event)) :=
  [("Cancel", kfServingCancel), ("Run", kfServingSubmit)]

/-- The action buttons of `KFServingPipelineDialog`: a single Ok button
running `handleSubmit(onSubmit)`. -/
def kfServingPipelineDialogButtons : List (String × (Vals → List Event)) :=
  [("Ok", kfServingPipelineSubmit)]

/-- The action buttons of the embedded variant. -/
def embeddedDialogButtons : List (String × (Vals → List Event)) :=
  [("Cancel", embeddedClose), ("Run", embeddedSubmit)]

/-- Every field registration occurring anywhere in the repository (the
`custom` branch of `KFServingDialog` renders the superset of its fields). -/
def allRegistrations : List FieldReg :=
  kfServingDialogFields "custom" ++ kfServingPipelineDialogFields ++ embeddedDialogFields

/-- The `KFServingFormData` interface of `KFServingDialog.tsx`: `name`,
`modelPath`, `predictor` are required; `image`, `port`, `endpoint` are
optional. -/
structure KFServingFormData where
  name : String
  modelPath : String
  predictor : String
  image : Option String := none
  port : Option Nat := none
  endpoint : Option String := none
deriving DecidableEq, Repr

/-- The CSS classes created by `useStyles` in `FormInput.tsx`, as the
style declarations of `createStyles`. -/
def styleOf (c : String) : List (String × String) :=
  if c = "label" then
    [("color", "var(--jp-input-border-color)"), ("fontSize", "var(--jp-ui-font-size2)")]
  else if c = "input" then [("color", "var(--jp-ui-font-color1)")]
  else if c = "textField" then [("width", "100%")]
  else if c = "helperLabel" then [("color", "var(--jp-info-color0)")]
  else []

/-- The `classes.label` class of `FormInput.tsx`. -/
def labelClass : String := "label"

/-- The `classes.input` class of `FormInput.tsx`. -/
def inputClass : String := "input"

/-- The `classes.textField` (full-width) class of `FormInput.tsx`. -/
def textFieldClass : String := "textField"

/-- The `classes.helperLabel` class of `FormInput.tsx`. -/
def helperLabelClass : String := "helperLabel"

/-- The `InputProps` object of a TextField: a `classes.root` entry and a
`readOnly` entry; `none` means the key is absent. -/
structure InnerInputProps where
  classesRoot : Option String := none
  readOnly : Option Bool := none
deriving DecidableEq, Repr

/-- A slot-props object carrying only a `classes.root` entry
(`InputLabelProps` / `FormHelperTextProps`). -/
structure SlotProps where
  classesRoot : Option String := none
deriving DecidableEq, Repr

/-- The props accepted by `FormInput` (`InputBaseProps`): the
`OutlinedTextFieldProps` fields the dialogs use plus `inputIndex` and
`readOnly`.  `none` means the prop was not passed. -/
structure InputBaseProps where
  variant : String
  name : String
  label : String
  defaultValue : String
  error : Bool := false
  helperText : Option String := none
  className : Option String := none
  inputIndex : Option Nat := none
  readOnly : Option Bool := none
  InputProps : Option InnerInputProps := none
  InputLabelProps : Option SlotProps := none
  FormHelperTextProps : Option SlotProps := none
  margin : Option String := none
  spellCheck : Option Bool := none
deriving DecidableEq, Repr

/-- The props `FormInput` hands to the rendered TextField (`inputIndex`
does not exist on a TextField and is dropped). -/
structure TextFieldProps where
  variant : String
  name : String
  label : String
  defaultValue : String
  error : Bool
  helperText : Option String
  className : Option String
  InputProps : Option InnerInputProps
  InputLabelProps : Option SlotProps
  FormHelperTextProps : Option SlotProps
  margin : Option String
  spellCheck : Option Bool
deriving DecidableEq, Repr

/-- `FormInput` from `FormInput.tsx`: destructures `className`,
`inputIndex`, `readOnly` (default `false`) and `InputProps` out of the
props, spreads the rest onto a TextField, and sets `className`, `margin`,
`spellCheck`, `InputProps` (the spread `...InputProps` lets an incoming
entry override the injected `classes`/`readOnly`), `InputLabelProps` and
`FormHelperTextProps`.  A pure function: the component keeps no state. -/
def formInput (p : InputBaseProps) : TextFieldProps :=
  let ro := p.readOnly.getD false
  let baseInner : InnerInputProps := { classesRoot := some inputClass, readOnly := some ro }
  let mergedInner : InnerInputProps :=
    match p.InputProps with
    | none => baseInner
    | some inc =>
      { classesRoot := inc.classesRoot.or baseInner.classesRoot,
        readOnly := inc.readOnly.or baseInner.readOnly }
  { variant := p.variant, name := p.name, label := p.label,
    defaultValue := p.defaultValue, error := p.error, helperText := p.helperText,
    className := some textFieldClass,
    InputProps := some mergedInner,
    InputLabelProps := some { classesRoot := some labelClass },
    FormHelperTextProps := some { classesRoot := some helperLabelClass },
    margin := some "dense",
    spellCheck := some false }

/-- A JSON value, as needed to state the Katib `feasibleSpace` rule. -/
inductive JsonVal where
  | jint (n : Int)
  | jstr (s : String)
  | jlist (l : List JsonVal)

/-- A Katib parameter document: its `parameterType` and the entries of its
`feasibleSpace` object. -/
structure KatibParameter where
  name : String
  parameterType : String
  feasibleSpace : List (String × JsonVal)

/-- Whether `feasibleSpace` has key `k` bound to an int. -/
def hasIntKey (p : KatibParameter) (k : String) : Bool :=
  p.feasibleSpace.any fun e => e.1 = k && (match e.2 with | .jint _ => true | _ => false)

/-- Whether `feasibleSpace` has key `k` at all. -/
def hasKey (p : KatibParameter) (k : String) : Bool :=
  p.feasibleSpace.any fun e => e.1 = k

/-- The conditional-validation rule documented in
`src/unnamed/part_000` (`katib_parameters.schema.json` notes): an `int`
parameter must carry int-typed `min` and `max` in `feasibleSpace`, and a
`categorical` parameter must carry `list`. -/
def katibConditionalRule (p : KatibParameter) : Bool :=
  (if p.parameterType = "int" then hasIntKey p "min" && hasIntKey p "max" else true) &&
  (if p.parameterType = "categorical" then hasKey p "list" else true)

/-- A valuation leaving every field empty: the state of a freshly opened
dialog whose fields all default to the empty string. -/
def emptyVals : Vals := fun _ => ""

/-- A form has no errors exactly when every registered field validates. -/
theorem formErrors_nil_iff (fields : List FieldReg) (vals : Vals) :
    formErrors fields vals = [] ↔
      ∀ f ∈ fields, validateField f.rules (vals f.name) = none := by
  simp [formErrors, List.filterMap_eq_nil_iff, Option.map_eq_none]

/-- A rules object carrying only a required message errors exactly on the
empty value. -/
theorem validateField_required_only (m : String) (v : String) :
    validateField { required := some m } v = if v = "" then some m else none := by
  simp [validateField]

/-- Every validation outcome is either no error, the field's required
message, or the field's pattern message. -/
theorem validateField_msg_cases (r : Rules) (v : String) :
    validateField r v = none ∨ validateField r v = r.required ∨
      validateField r v = r.pattern.map PatternRule.message := by
  rcases hr : r.required with _ | m <;> rcases hp : r.pattern with _ | pr <;>
    simp only [validateField, hr, hp] <;> (try split_ifs) <;> simp

/-- The fields `KFServingDialog` renders for any predictor value are among
those it renders for the custom predictor. -/
theorem mem_kfServingDialogFields_custom (p : String) (f : FieldReg)
    (h : f ∈ kfServingDialogFields p) : f ∈ kfServingDialogFields "custom" := by
  unfold kfServingDialogFields at h ⊢
  rcases List.mem_append.mp h with h1 | h2
  · exact List.mem_append.mpr (Or.inl h1)
  · refine List.mem_append.mpr (Or.inr ?_)
    by_cases hp : p = "custom"
    · simpa [hp] using h2
    · simp [hp] at h2

/-- If some registered field fails validation, the form has errors. -/
theorem formErrors_ne_nil (fields : List FieldReg) (vals : Vals) (f : FieldReg)
    (hf : f ∈ fields) (m : String)
    (hv : validateField f.rules (vals f.name) = some m) :
    formErrors fields vals ≠ [] := by
  intro hnil
  have h := (formErrors_nil_iff fields vals).mp hnil f hf
  rw [hv] at h
  cases h

/-- The keys of a captured record are exactly the registered field names. -/
theorem formRecord_keys (fields : List FieldReg) (vals : Vals) :
    (formRecord fields vals).map Prod.fst = fields.map FieldReg.name := by
  simp [formRecord]

/-- Values filling every field of the embedded dialog validly. -/
def c1EmbeddedVals : Vals := fun n =>
  if n = "name" then "abc"
  else if n = "image" then "img"
  else if n = "port" then "5000"
  else if n = "endpoint" then "ep"
  else if n = "path" then "mp"
  else ""

/-- C1 counterexample: in the `KFServingDialog` variant embedded in
`FormInput.tsx`, a submission that passes validation (no form errors on
these concrete values) produces an empty event trace — the record is
handed to no external callback, because the handler body is commented
out.  This refutes the claim that every dialog's `onSubmit` delivers the
record to an external callback. -/
theorem c1_embedded_submit_delivers_nothing :
    formErrors embeddedDialogFields c1EmbeddedVals = [] ∧
    embeddedSubmit c1EmbeddedVals = [] := by decide

/-- C1 amended: every successful submission of `KFServingDialog` hands
the flat key-value record (keys drawn from name, modelPath, predictor,
image, port, endpoint) to `runInferenceService`, and every successful
submission of `KFServingPipelineDialog` hands the record (keys model,
predictor) to `setKFServingMetadata`; the embedded variant in
`FormInput.tsx` invokes no callback on submission. -/
theorem c1_submission_record_to_callback (vals : Vals) :
    (formErrors (kfServingDialogFields (vals "predictor")) vals = [] →
      kfServingSubmit vals =
        [Event.toggleDialog,
         Event.runInferenceService
           (formRecord (kfServingDialogFields (vals "predictor")) vals)] ∧
      (formRecord (kfServingDialogFields (vals "predictor")) vals).map Prod.fst ⊆
        ["name", "modelPath", "predictor", "image", "port", "endpoint"]) ∧
    (formErrors kfServingPipelineDialogFields vals = [] →
      kfServingPipelineSubmit vals =
        [Event.toggleDialog,
         Event.setKFServingMetadata (formRecord kfServingPipelineDialogFields vals)] ∧
      (formRecord kfServingPipelineDialogFields vals).map Prod.fst =
        ["model", "predictor"]) ∧
    embeddedSubmit vals = [] := by
  refine ⟨fun h => ⟨?_, ?_⟩, fun h => ⟨?_, ?_⟩, ?_⟩
  · simp [kfServingSubmit, handleSubmitRun, h, kfServingOnSubmit]
  · rw [formRecord_keys]
    by_cases hp : vals "predictor" = "custom" <;>
      simp [kfServingDialogFields, hp, kfsNameField, kfsModelPathField, kfsPredictorField,
        kfsImageField, kfsPortField, kfsEndpointField, List.subset_def]
  · simp [kfServingPipelineSubmit, handleSubmitRun, h, kfServingPipelineOnSubmit]
  · rw [formRecord_keys]
    simp [kfServingPipelineDialogFields, kfpModelField, kfpPredictorField]
  · simp [embeddedSubmit, handleSubmitRun, embeddedOnSubmit]

/-- Values validating both the predictor-based serving form (with a
non-custom predictor) and the pipeline form. -/
def c1GoodVals : Vals := fun n =>
  if n = "name" then "abc"
  else if n = "modelPath" then "mp"
  else if n = "predictor" then "sklearn"
  else if n = "model" then "mv"
  else ""

/-- C1 witness: the amended theorem applied at concrete valid values. -/
theorem c1_submission_record_to_callback_witness :
    kfServingSubmit c1GoodVals =
      [Event.toggleDialog,
       Event.runInferenceService
         (formRecord (kfServingDialogFields (c1GoodVals "predictor")) c1GoodVals)] ∧
    kfServingPipelineSubmit c1GoodVals =
      [Event.toggleDialog,
       Event.setKFServingMetadata (formRecord kfServingPipelineDialogFields c1GoodVals)] ∧
    embeddedSubmit c1GoodVals = [] :=
  ⟨((c1_submission_record_to_callback c1GoodVals).1 (by decide)).1,
   ((c1_submission_record_to_callback c1GoodVals).2.1 (by decide)).1,
   (c1_submission_record_to_callback c1GoodVals).2.2⟩

/-- Values for a serving form with a non-custom predictor, all required
fields valid. -/
def c2Vals : Vals := fun n =>
  if n = "name" then "svc"
  else if n = "modelPath" then "mp"
  else if n = "predictor" then "sklearn"
  else ""

/-- C2: in the predictor-based `KFServingDialog`, the image, port and
endpoint inputs (with their required rules) are rendered and registered
exactly when the watched predictor value is `custom`; for any other
predictor value a submission validates exactly when name, modelPath and
predictor do (image, port, endpoint impose nothing), and
`KFServingFormData` admits records with image, port and endpoint absent. -/
theorem c2_custom_fields_iff (p : String) (vals : Vals) :
    (("image" ∈ (kfServingDialogFields p).map FieldReg.name ∧
      "port" ∈ (kfServingDialogFields p).map FieldReg.name ∧
      "endpoint" ∈ (kfServingDialogFields p).map FieldReg.name) ↔ p = "custom") ∧
    (p = "custom" →
      kfsImageField ∈ kfServingDialogFields p ∧
      kfsImageField.rules.required = some "Required field" ∧
      kfsPortField ∈ kfServingDialogFields p ∧
      kfsPortField.rules.required = some "Required field" ∧
      kfsEndpointField ∈ kfServingDialogFields p ∧
      kfsEndpointField.rules.required = some "Required field") ∧
    (vals "predictor" ≠ "custom" →
      (formErrors (kfServingDialogFields (vals "predictor")) vals = [] ↔
        validateField kfsNameField.rules (vals "name") = none ∧
        validateField kfsModelPathField.rules (vals "modelPath") = none ∧
        validateField kfsPredictorField.rules (vals "predictor") = none)) ∧
    (∀ n m pr : String, ∃ d : KFServingFormData,
      d.name = n ∧ d.modelPath = m ∧ d.predictor = pr ∧
      d.image = none ∧ d.port = none ∧ d.endpoint = none) := by
  refine ⟨?_, fun hp => ?_, fun hv => ?_, fun n m pr => ?_⟩
  · by_cases hp : p = "custom" <;>
      simp [kfServingDialogFields, hp, kfsNameField, kfsModelPathField, kfsPredictorField,
        kfsImageField, kfsPortField, kfsEndpointField]
  · simp [kfServingDialogFields, hp, kfsImageField, kfsPortField, kfsEndpointField]
  · rw [formErrors_nil_iff]
    simp [kfServingDialogFields, hv, kfsNameField, kfsModelPathField, kfsPredictorField]
  · exact ⟨{ name := n, modelPath := m, predictor := pr }, rfl, rfl, rfl, rfl, rfl, rfl⟩

/-- C2 witness: the theorem applied at the custom predictor value and at
concrete non-custom form values. -/
theorem c2_custom_fields_iff_witness :
    (kfsImageField ∈ kfServingDialogFields "custom" ∧
      kfsImageField.rules.required = some "Required field" ∧
      kfsPortField ∈ kfServingDialogFields "custom" ∧
      kfsPortField.rules.required = some "Required field" ∧
      kfsEndpointField ∈ kfServingDialogFields "custom" ∧
      kfsEndpointField.rules.required = some "Required field") ∧
    (formErrors (kfServingDialogFields (c2Vals "predictor")) c2Vals = [] ↔
      validateField kfsNameField.rules (c2Vals "name") = none ∧
      validateField kfsModelPathField.rules (c2Vals "modelPath") = none ∧
      validateField kfsPredictorField.rules (c2Vals "predictor") = none) :=
  ⟨(c2_custom_fields_iff "custom" c2Vals).2.1 rfl,
   (c2_custom_fields_iff "custom" c2Vals).2.2.1 (by decide)⟩

/-- C3 counterexample: on the empty value the name and port fields yield
'Required field', not their pattern messages, although the empty string
matches neither regex — refuting that the pattern message appears exactly
when the value fails the regex. -/
theorem c3_empty_name_yields_required :
    k8sNameMatch "" = false ∧
    validateField kfsNameField.rules "" = some "Required field" ∧
    validateField kfsNameField.rules "" ≠ some "Must be a valid K8s resource name" ∧
    intMatch "" = false ∧
    validateField kfsPortField.rules "" = some "Required field" ∧
    validateField kfsPortField.rules "" ≠ some "Must be an int" := by decide

/-- C3 amended: every registered field yields 'Required field' on the
empty value (the required check precedes the pattern check); on a
non-empty value the name field yields 'Must be a valid K8s resource name'
exactly when the K8s regex fails and the port field 'Must be an int'
exactly when the digits regex fails (the embedded dialog's name and port
registrations carry the same rules); and no validation ever produces a
message other than these three. -/
theorem c3_field_level_messages (f : FieldReg) (v : String) :
    (f ∈ allRegistrations → validateField f.rules "" = some "Required field") ∧
    (v ≠ "" → validateField kfsNameField.rules v =
      (if k8sNameMatch v then none else some "Must be a valid K8s resource name")) ∧
    (v ≠ "" → validateField kfsPortField.rules v =
      (if intMatch v then none else some "Must be an int")) ∧
    (∀ g ∈ embeddedDialogFields,
      (g.name = "name" → g.rules = kfsNameField.rules) ∧
      (g.name = "port" → g.rules = kfsPortField.rules)) ∧
    (f ∈ allRegistrations →
      validateField f.rules v = none ∨
      validateField f.rules v = some "Required field" ∨
      validateField f.rules v = some "Must be a valid K8s resource name" ∨
      validateField f.rules v = some "Must be an int") := by
  have hreq : ∀ g ∈ allRegistrations, g.rules.required = some "Required field" := by decide
  have hpat : ∀ g ∈ allRegistrations,
      g.rules.pattern = none ∨
      g.rules.pattern = some ⟨.k8sName, "Must be a valid K8s resource name"⟩ ∨
      g.rules.pattern = some ⟨.digits, "Must be an int"⟩ := by decide
  refine ⟨fun hf => ?_, fun hv => ?_, fun hv => ?_, by decide, fun hf => ?_⟩
  · have h := hreq f hf
    simp [validateField, h]
  · simp [validateField, kfsNameField, regexTest, hv]
  · simp [validateField, kfsPortField, regexTest, hv]
  · rcases validateField_msg_cases f.rules v with h | h | h
    · exact Or.inl h
    · rw [h, hreq f hf]
      simp
    · rcases hpat f hf with hp | hp | hp <;> rw [h, hp] <;> simp

/-- C3 witness: the amended theorem applied at the name field with the
empty and a non-matching value, and at the port field with a non-numeric
value. -/
theorem c3_field_level_messages_witness :
    validateField kfsNameField.rules "" = some "Required field" ∧
    validateField kfsNameField.rules "Abc" =
      (if k8sNameMatch "Abc" then none else some "Must be a valid K8s resource name") ∧
    validateField kfsPortField.rules "12a" =
      (if intMatch "12a" then none else some "Must be an int") ∧
    (validateField kfsPortField.rules "12a" = none ∨
      validateField kfsPortField.rules "12a" = some "Required field" ∨
      validateField kfsPortField.rules "12a" = some "Must be a valid K8s resource name" ∨
      validateField kfsPortField.rules "12a" = some "Must be an int") :=
  ⟨(c3_field_level_messages kfsNameField "Abc").1 (by decide),
   (c3_field_level_messages kfsNameField "Abc").2.1 (by decide),
   (c3_field_level_messages kfsPortField "12a").2.2.1 (by decide),
   (c3_field_level_messages kfsPortField "12a").2.2.2.2 (by decide)⟩

/-- C4: every rules object passed to `register` or to a Controller in any
dialog of the repository consists solely of a `required` message and
optionally a `pattern`: the library's `min`, `max`, `minLength`,
`maxLength` and custom-`validate` options are never used, so only
field-level required/regex validation is enforced. -/
theorem c4_rules_required_pattern_only (p : String) (f : FieldReg)
    (hf : f ∈ kfServingDialogFields p ∨ f ∈ kfServingPipelineDialogFields ∨
      f ∈ embeddedDialogFields) :
    (∃ m, f.rules.required = some m) ∧
    f.rules.min = none ∧ f.rules.max = none ∧
    f.rules.minLength = none ∧ f.rules.maxLength = none ∧
    f.rules.validate = false := by
  have hall : ∀ g ∈ allRegistrations,
      g.rules.required.isSome = true ∧
      g.rules.min = none ∧ g.rules.max = none ∧
      g.rules.minLength = none ∧ g.rules.maxLength = none ∧
      g.rules.validate = false := by decide
  have hmem : f ∈ allRegistrations := by
    unfold allRegistrations
    rcases hf with h | h | h
    · exact List.mem_append.mpr (Or.inl (List.mem_append.mpr
        (Or.inl (mem_kfServingDialogFields_custom p f h))))
    · exact List.mem_append.mpr (Or.inl (List.mem_append.mpr (Or.inr h)))
    · exact List.mem_append.mpr (Or.inr h)
  have h := hall f hmem
  exact ⟨Option.isSome_iff_exists.mp h.1, h.2⟩

/-- C4 witness: the theorem applied at the pipeline dialog's model field. -/
theorem c4_rules_required_pattern_only_witness :
    (∃ m, kfpModelField.rules.required = some m) ∧
    kfpModelField.rules.min = none ∧ kfpModelField.rules.max = none ∧
    kfpModelField.rules.minLength = none ∧ kfpModelField.rules.maxLength = none ∧
    kfpModelField.rules.validate = false :=
  c4_rules_required_pattern_only "x" kfpModelField (Or.inr (Or.inl (by decide)))

/-- C5: in each of the three dialogs the open-effect is identical; when it
runs with `open` true it starts exactly one asynchronous operation, a
500 ms timer whose expiry triggers validation, and when `open` is false it
starts nothing; every operation it ever starts is that timer, so the timer
is the only asynchronous behaviour. -/
theorem c5_open_effect_single_timer (b : Bool) :
    (kfServingOpenEffect b = kfServingPipelineOpenEffect b ∧
     kfServingOpenEffect b = embeddedOpenEffect b) ∧
    (b = true →
      kfServingOpenEffect b = [AsyncOp.timer 500 TimerAction.triggerValidation]) ∧
    (b = false → kfServingOpenEffect b = []) ∧
    (kfServingOpenEffect b).length ≤ 1 ∧
    (∀ op ∈ kfServingOpenEffect b,
      op = AsyncOp.timer 500 TimerAction.triggerValidation) := by
  cases b <;> decide

/-- C5 witness: the theorem applied at both values of `open`. -/
theorem c5_open_effect_single_timer_witness :
    kfServingOpenEffect true = [AsyncOp.timer 500 TimerAction.triggerValidation] ∧
    kfServingOpenEffect false = [] :=
  ⟨(c5_open_effect_single_timer true).2.1 rfl,
   (c5_open_effect_single_timer false).2.2.1 rfl⟩

/-- An `int`-typed Katib parameter with an empty `feasibleSpace`,
violating the documented rule. -/
def c6BadParam : KatibParameter :=
  { name := "lr", parameterType := "int", feasibleSpace := [] }

/-- C6: the conditional rule documented in the Katib schema notes is
formalized by `katibConditionalRule`; it is violated by a concrete
parameter document, yet no validation operation anywhere in the source
touches Katib data: every registered field of every dialog (the only
validation the source performs) is one of the serving-form string fields,
never `parameterType` or `feasibleSpace` — so the rule is documented but
unenforced. -/
theorem c6_katib_rule_unenforced :
    katibConditionalRule c6BadParam = false ∧
    (∀ f ∈ allRegistrations, f.name ≠ "parameterType" ∧ f.name ≠ "feasibleSpace") ∧
    (∀ f ∈ allRegistrations,
      f.name ∈ ["name", "modelPath", "predictor", "image", "port", "endpoint",
        "model", "path"]) := by
  refine ⟨rfl, by decide, by decide⟩

/-- C6 witness: the theorem's membership part applied at a concrete
field. -/
theorem c6_katib_rule_unenforced_witness :
    katibConditionalRule c6BadParam = false ∧
    (kfsNameField.name ≠ "parameterType" ∧ kfsNameField.name ≠ "feasibleSpace") :=
  ⟨c6_katib_rule_unenforced.1,
   c6_katib_rule_unenforced.2.1 kfsNameField (by decide)⟩

/-- Props passing a caller-supplied `InputLabelProps`. -/
def c7LabelProps : InputBaseProps :=
  { variant := "outlined", name := "n", label := "l", defaultValue := "",
    InputLabelProps := some { classesRoot := some "caller-classes" } }

/-- C7 counterexample: `FormInput` does not forward an incoming
`InputLabelProps` unchanged — it always replaces it with the fixed
label-class record (and likewise `FormHelperTextProps`), so the rendered
TextField does not receive all props unchanged apart from the claim's
listed exceptions. -/
theorem c7_labelprops_not_preserved :
    (formInput c7LabelProps).InputLabelProps ≠ c7LabelProps.InputLabelProps ∧
    (formInput c7LabelProps).InputLabelProps =
      some { classesRoot := some labelClass } := by
  decide

/-- C7 amended: `formInput` is a pure function (the component keeps no
state) rendering a single TextField that receives the remaining props
unchanged, with `className` replaced by the full-width textField class,
`margin` fixed to dense, `spellCheck` fixed to false, `inputIndex`
dropped (absent from the TextField props), `InputLabelProps` and
`FormHelperTextProps` replaced by fixed class records, and `readOnly`
(defaulting to false when absent) placed inside `InputProps`, where an
explicitly passed `InputProps` entry overrides it. -/
theorem c7_forminput_transformation (p : InputBaseProps) :
    (formInput p).variant = p.variant ∧
    (formInput p).name = p.name ∧
    (formInput p).label = p.label ∧
    (formInput p).defaultValue = p.defaultValue ∧
    (formInput p).error = p.error ∧
    (formInput p).helperText = p.helperText ∧
    (formInput p).className = some textFieldClass ∧
    styleOf textFieldClass = [("width", "100%")] ∧
    (formInput p).margin = some "dense" ∧
    (formInput p).spellCheck = some false ∧
    (formInput p).InputLabelProps = some { classesRoot := some labelClass } ∧
    (formInput p).FormHelperTextProps = some { classesRoot := some helperLabelClass } ∧
    (p.InputProps = none →
      (formInput p).InputProps =
        some { classesRoot := some inputClass,
               readOnly := some (p.readOnly.getD false) }) ∧
    (∀ inc, p.InputProps = some inc →
      (formInput p).InputProps =
        some { classesRoot := inc.classesRoot.or (some inputClass),
               readOnly := inc.readOnly.or (some (p.readOnly.getD false)) }) := by
  refine ⟨rfl, rfl, rfl, rfl, rfl, rfl, rfl, by decide, rfl, rfl, rfl, rfl,
    fun h => ?_, fun inc h => ?_⟩
  · simp [formInput, h]
  · simp [formInput, h]

/-- Props with no caller-supplied `InputProps`. -/
def c7PlainProps : InputBaseProps :=
  { variant := "outlined", name := "name", label := "InferenceService Name",
    defaultValue := "" }

/-- Props whose caller-supplied `InputProps` carries its own `readOnly`. -/
def c7IncProps : InputBaseProps :=
  { variant := "outlined", name := "n2", label := "l2", defaultValue := "",
    InputProps := some { readOnly := some true } }

/-- C7 witness: the amended theorem applied with and without an incoming
`InputProps`. -/
theorem c7_forminput_transformation_witness :
    (formInput c7PlainProps).InputProps =
      some { classesRoot := some inputClass,
             readOnly := some (c7PlainProps.readOnly.getD false) } ∧
    (formInput c7IncProps).InputProps =
      some { classesRoot := Option.or none (some inputClass),
             readOnly := Option.or (some true) (some (c7IncProps.readOnly.getD false)) } :=
  ⟨(c7_forminput_transformation c7PlainProps).2.2.2.2.2.2.2.2.2.2.2.2.1 rfl,
   (c7_forminput_transformation c7IncProps).2.2.2.2.2.2.2.2.2.2.2.2.2
     { readOnly := some true } rfl⟩

/-- C8: the predictor-based `KFServingDialog` has a Cancel button (its
first action button) whose click runs `onCancel`, which calls
`toggleDialog` exactly once and never invokes `runInferenceService` (or
any other callback), for every form state: cancelling discards the
entered data. -/
theorem c8_cancel_only_toggles (vals : Vals) :
    kfServingDialogButtons.map Prod.fst = ["Cancel", "Run"] ∧
    (∀ h, ("Cancel", h) ∈ kfServingDialogButtons → h vals = [Event.toggleDialog]) ∧
    (kfServingCancel vals).count Event.toggleDialog = 1 ∧
    (∀ d, Event.runInferenceService d ∉ kfServingCancel vals) ∧
    (∀ d, Event.setKFServingMetadata d ∉ kfServingCancel vals) := by
  refine ⟨rfl, fun h hm => ?_, rfl, fun d => ?_, fun d => ?_⟩
  · simp only [kfServingDialogButtons, List.mem_cons, List.not_mem_nil, or_false] at hm
    rcases hm with hm | hm
    · have h2 : h = kfServingCancel := congrArg Prod.snd hm
      rw [h2]
      rfl
    · have h1 : "Cancel" = "Run" := congrArg Prod.fst hm
      exact absurd h1 (by decide)
  · simp [kfServingCancel]
  · simp [kfServingCancel]

/-- C8 witness: the theorem applied at the empty form state and at the
Cancel button's handler. -/
theorem c8_cancel_only_toggles_witness :
    kfServingCancel emptyVals = [Event.toggleDialog] ∧
    (kfServingCancel emptyVals).count Event.toggleDialog = 1 :=
  ⟨(c8_cancel_only_toggles emptyVals).2.1 kfServingCancel
      (by unfold kfServingDialogButtons; exact List.mem_cons_self _ _),
   (c8_cancel_only_toggles emptyVals).2.2.1⟩

/-- C9: `KFServingPipelineDialog` offers no Cancel action — its only
button is Ok, running `handleSubmit(onSubmit)` — so
`setKFServingMetadata` is invoked exactly when both the `model` and
`predictor` fields are non-empty, and on every successful submission the
trace is `toggleDialog` followed by `setKFServingMetadata`. -/
theorem c9_pipeline_ok_only (vals : Vals) :
    kfServingPipelineDialogButtons.map Prod.fst = ["Ok"] ∧
    "Cancel" ∉ kfServingPipelineDialogButtons.map Prod.fst ∧
    ((∃ d, Event.setKFServingMetadata d ∈ kfServingPipelineSubmit vals) ↔
      (vals "model" ≠ "" ∧ vals "predictor" ≠ "")) ∧
    (∀ d, Event.setKFServingMetadata d ∈ kfServingPipelineSubmit vals →
      kfServingPipelineSubmit vals =
        [Event.toggleDialog, Event.setKFServingMetadata d]) := by
  have hform : formErrors kfServingPipelineDialogFields vals = [] ↔
      (vals "model" ≠ "" ∧ vals "predictor" ≠ "") := by
    rw [formErrors_nil_iff]
    simp [kfServingPipelineDialogFields, kfpModelField, kfpPredictorField, validateField]
  refine ⟨rfl, by decide, ?_, fun d hd => ?_⟩
  · constructor
    · rintro ⟨d, hd⟩
      by_contra hne
      rw [← hform] at hne
      simp [kfServingPipelineSubmit, handleSubmitRun, hne] at hd
    · intro h
      rw [← hform] at h
      exact ⟨formRecord kfServingPipelineDialogFields vals,
        by simp [kfServingPipelineSubmit, handleSubmitRun, h, kfServingPipelineOnSubmit]⟩
  · by_cases h : formErrors kfServingPipelineDialogFields vals = []
    · simp only [kfServingPipelineSubmit, handleSubmitRun, if_pos h,
        kfServingPipelineOnSubmit] at hd ⊢
      rcases List.mem_cons.mp hd with h1 | h1
      · cases h1
      · rcases List.mem_cons.mp h1 with h2 | h2
        · injection h2 with h3
          rw [h3]
        · cases h2
    · simp [kfServingPipelineSubmit, handleSubmitRun, h] at hd

/-- Valid values for the pipeline form. -/
def c9Vals : Vals := fun n =>
  if n = "model" then "mv" else if n = "predictor" then "sklearn" else ""

/-- C9 witness: the theorem applied at concrete valid pipeline values. -/
theorem c9_pipeline_ok_only_witness :
    kfServingPipelineSubmit c9Vals =
      [Event.toggleDialog,
       Event.setKFServingMetadata (formRecord kfServingPipelineDialogFields c9Vals)] :=
  (c9_pipeline_ok_only c9Vals).2.2.2
    (formRecord kfServingPipelineDialogFields c9Vals) (by decide)

/-- C10: `PREDICTOR_VALUES` has exactly 7 entries with pairwise-distinct
value strings, is shared by the predictor selects of both dialogs, whose
default selection is the empty string — a value not in the list that
fails the required rule — so a freshly opened dialog (predictor still
empty) cannot be submitted. -/
theorem c10_predictor_values (vals : Vals) :
    PREDICTOR_VALUES.length = 7 ∧
    (PREDICTOR_VALUES.map LabelValue.value).Nodup ∧
    PREDICTOR_VALUES.map LabelValue.value =
      ["tensorflow", "pytorch", "onnx", "triton", "sklearn", "xgboost", "custom"] ∧
    "" ∉ PREDICTOR_VALUES.map LabelValue.value ∧
    kfsPredictorField.values = some PREDICTOR_VALUES ∧
    kfpPredictorField.values = some PREDICTOR_VALUES ∧
    kfsPredictorField.defaultValue = "" ∧
    kfpPredictorField.defaultValue = "" ∧
    validateField kfsPredictorField.rules "" = some "Required field" ∧
    validateField kfpPredictorField.rules "" = some "Required field" ∧
    (vals "predictor" = "" →
      kfServingSubmit vals = [] ∧ kfServingPipelineSubmit vals = []) := by
  refine ⟨rfl, by decide, rfl, by decide, rfl, rfl, rfl, rfl, by decide, by decide,
    fun hp => ⟨?_, ?_⟩⟩
  · have hmem : kfsPredictorField ∈ kfServingDialogFields (vals "predictor") := by
      unfold kfServingDialogFields
      exact List.mem_append.mpr (Or.inl (by decide))
    have hv : validateField kfsPredictorField.rules (vals kfsPredictorField.name) =
        some "Required field" := by
      have he : vals kfsPredictorField.name = "" := hp
      rw [he]
      decide
    have hne := formErrors_ne_nil _ vals kfsPredictorField hmem "Required field" hv
    simp [kfServingSubmit, handleSubmitRun, hne]
  · have hv : validateField kfpPredictorField.rules (vals kfpPredictorField.name) =
        some "Required field" := by
      have he : vals kfpPredictorField.name = "" := hp
      rw [he]
      decide
    have hne := formErrors_ne_nil kfServingPipelineDialogFields vals kfpPredictorField
      (by decide) "Required field" hv
    simp [kfServingPipelineSubmit, handleSubmitRun, hne]

/-- C10 witness: the theorem applied at the all-empty fresh form state. -/
theorem c10_predictor_values_witness :
    kfServingSubmit emptyVals = [] ∧ kfServingPipelineSubmit emptyVals = [] :=
  (c10_predictor_values emptyVals).2.2.2.2.2.2.2.2.2.2 rfl
